import Mathlib

/-!
Verification development for the guarded EC2 action-authorization engine
(`lambda_handler.py`).  The stateful DynamoDB tables (action log and
confirmation-token table) are embedded as explicit state; read-only AWS
calls (describe_instances, describe_images, describe_volumes) are supplied
by an environment record; mutating AWS calls (terminate_instances,
delete_volume) are recorded in a call trace.  Machine integers are `Nat`
with explicit `% 2 ^ 32` where the hash arithmetic overflows; monetary
amounts are exact rationals.
-/

/-! ### SHA-256 (hashlib.sha256), over byte lists, words as `Nat` mod 2^32 -/

def toWord (x : Nat) : Nat := x % 4294967296

def rotr32 (n x : Nat) : Nat := toWord (x / 2 ^ n + x % 2 ^ n * 2 ^ (32 - n))

def shr32 (n x : Nat) : Nat := x / 2 ^ n

def not32 (x : Nat) : Nat := x ^^^ 4294967295

def bsig0 (x : Nat) : Nat := rotr32 2 x ^^^ rotr32 13 x ^^^ rotr32 22 x

def bsig1 (x : Nat) : Nat := rotr32 6 x ^^^ rotr32 11 x ^^^ rotr32 25 x

def ssig0 (x : Nat) : Nat := rotr32 7 x ^^^ rotr32 18 x ^^^ shr32 3 x

def ssig1 (x : Nat) : Nat := rotr32 17 x ^^^ rotr32 19 x ^^^ shr32 10 x

def chf (x y z : Nat) : Nat := (x &&& y) ^^^ (not32 x &&& z)

def majf (x y z : Nat) : Nat := (x &&& y) ^^^ (x &&& z) ^^^ (y &&& z)

def sha256K : List Nat :=
  [1116352408, 1899447441, 3049323471, 3921009573, 961987163,
   1508970993, 2453635748, 2870763221, 3624381080, 310598401,
   607225278, 1426881987, 1925078388, 2162078206, 2614888103,
   3248222580, 3835390401, 4022224774, 264347078, 604807628,
   770255983, 1249150122, 1555081692, 1996064986, 2554220882,
   2821834349, 2952996808, 3210313671, 3336571891, 3584528711,
   113926993, 338241895, 666307205, 773529912, 1294757372,
   1396182291, 1695183700, 1986661051, 2177026350, 2456956037,
   2730485921, 2820302411, 3259730800, 3345764771, 3516065817,
   3600352804, 4094571909, 275423344, 430227734, 506948616,
   659060556, 883997877, 958139571, 1322822218, 1537002063,
   1747873779, 1955562222, 2024104815, 2227730452, 2361852424,
   2428436474, 2756734187, 3204031479, 3329325298]

structure Hst where
  h0 : Nat
  h1 : Nat
  h2 : Nat
  h3 : Nat
  h4 : Nat
  h5 : Nat
  h6 : Nat
  h7 : Nat
  deriving Repr, DecidableEq

def initH : Hst :=
  ⟨1779033703, 3144134277, 1013904242, 2773480762,
   1359893119, 2600822924, 528734635, 1541459225⟩

/-- Message schedule: 64 words from the 16 words of one block. -/
def schedule (ws16 : List Nat) : List Nat :=
  (List.range 64).foldl
    (fun ws i =>
      if i < 16 then ws ++ [ws16.getD i 0]
      else ws ++ [toWord (ssig1 (ws.getD (i - 2) 0) + ws.getD (i - 7) 0 +
                          ssig0 (ws.getD (i - 15) 0) + ws.getD (i - 16) 0)])
    []

def roundStep (ws : List Nat)
    (s : Nat × Nat × Nat × Nat × Nat × Nat × Nat × Nat) (i : Nat) :
    Nat × Nat × Nat × Nat × Nat × Nat × Nat × Nat :=
  match s with
  | (a, b, c, d, e, f, g, h) =>
    let t1 := toWord (h + bsig1 e + chf e f g + sha256K.getD i 0 + ws.getD i 0)
    let t2 := toWord (bsig0 a + majf a b c)
    (toWord (t1 + t2), a, b, c, toWord (d + t1), e, f, g)

def compress (H : Hst) (ws16 : List Nat) : Hst :=
  let ws := schedule ws16
  let r := (List.range 64).foldl (roundStep ws)
    (H.h0, H.h1, H.h2, H.h3, H.h4, H.h5, H.h6, H.h7)
  ⟨toWord (H.h0 + r.1), toWord (H.h1 + r.2.1), toWord (H.h2 + r.2.2.1),
   toWord (H.h3 + r.2.2.2.1), toWord (H.h4 + r.2.2.2.2.1), toWord (H.h5 + r.2.2.2.2.2.1),
   toWord (H.h6 + r.2.2.2.2.2.2.1), toWord (H.h7 + r.2.2.2.2.2.2.2)⟩

/-- Big-endian 8-byte encoding of the bit length. -/
def be64 (n : Nat) : List Nat :=
  [n / 2 ^ 56 % 256, n / 2 ^ 48 % 256, n / 2 ^ 40 % 256, n / 2 ^ 32 % 256,
   n / 2 ^ 24 % 256, n / 2 ^ 16 % 256, n / 2 ^ 8 % 256, n % 256]

def padMsg (msg : List Nat) : List Nat :=
  let L := msg.length
  let z := (64 - (L + 9) % 64) % 64
  msg ++ [128] ++ List.replicate z 0 ++ be64 (8 * L)

def blockWords (blk : List Nat) : List Nat :=
  (List.range 16).map (fun j =>
    blk.getD (4 * j) 0 * 16777216 + blk.getD (4 * j + 1) 0 * 65536 +
    blk.getD (4 * j + 2) 0 * 256 + blk.getD (4 * j + 3) 0)

def sha256H (msg : List Nat) : Hst :=
  let p := padMsg msg
  let nb := p.length / 64
  (List.range nb).foldl (fun H i => compress H (blockWords ((p.drop (64 * i)).take 64))) initH

/-- The 256-bit digest as a natural number (big-endian word concatenation,
which is what `hexdigest()` renders). -/
def sha256Nat (msg : List Nat) : Nat :=
  let H := sha256H msg
  ((((((H.h0 * 4294967296 + H.h1) * 4294967296 + H.h2) * 4294967296 + H.h3) * 4294967296 +
      H.h4) * 4294967296 + H.h5) * 4294967296 + H.h6) * 4294967296 + H.h7

/-! ### Confirmation-token value (generate_confirmation_token, lines 104-107)

`data = f"{action}:{json.dumps(parameters)}:{time.time()}"`,
`token = hashlib.sha256(data.encode()).hexdigest()[:12].upper()`.
The first 12 hex characters of the digest are the top 48 bits of
`sha256Nat`, rendered in uppercase hex. -/

def hexDigitChar (n : Nat) : Char :=
  if n < 10 then Char.ofNat (48 + n) else Char.ofNat (55 + n)

/-- Render a `Nat` below `16 ^ 12` as 12 uppercase hex characters
(leading zeros included), as `hexdigest()[:12].upper()` does. -/
def hexUpper12 (n : Nat) : String :=
  String.mk ((List.range 12).map (fun i => hexDigitChar (n / 16 ^ (11 - i) % 16)))

/-- UTF-8 bytes of a string, as `str.encode()` produces. -/
def strBytes (s : String) : List Nat := s.toUTF8.toList.map (fun b => b.toNat)

/-- The pre-hash data `action:parameters:time` at byte level (58 = colon). -/
def tokenData (a p t : List Nat) : List Nat := a ++ [58] ++ p ++ [58] ++ t

/-- Top 48 bits of the SHA-256 digest of the pre-hash data: the numeric
value of `hexdigest()[:12]`. -/
def tokenNat (a p t : List Nat) : Nat := sha256Nat (tokenData a p t) / 2 ^ 208

def token_value (a p t : List Nat) : String := hexUpper12 (tokenNat a p t)

def tokenValueStr (action paramsJson timeStr : String) : String :=
  token_value (strBytes action) (strBytes paramsJson) (strBytes timeStr)

/-! ### Data model

Action parameters in the modelled flows are flat string-to-string
mappings; `json.dumps` (default separators) is `serializeParams`. -/

def Params : Type := List (String × String)

def quoteJson (s : String) : String := "\"" ++ s ++ "\""

def serializeParams (ps : Params) : String :=
  "\x7b" ++ String.intercalate ", " (ps.map (fun kv => quoteJson kv.1 ++ ": " ++ quoteJson kv.2)) ++ "\x7d"

/-- A row of the DynamoDB confirmation-token table. -/
structure TokenRecord where
  token : String
  action : String
  parameters : String
  created_at : String
  expires_at : Nat
  ttl : Nat
  deriving Repr, DecidableEq

/-- A row of the DynamoDB action-log table. -/
structure LogRecord where
  log_id : String
  timestamp : String
  action : String
  parameters : String
  status : String
  user_query : String := ""
  user_email : String := "anonymous"
  ttl : Nat
  result : Option String := none
  error : Option String := none
  deriving Repr, DecidableEq

/-- Return value of `log_action`. -/
structure LogResult where
  logged : Bool
  log_id : Option String := none
  error : Option String := none
  deriving Repr, DecidableEq

/-- Return value of `verify_confirmation_token`. -/
structure VerifyResult where
  valid : Bool
  error : Option String := none
  action : Option String := none
  parameters : Option String := none
  deriving Repr, DecidableEq

/-- An AMI as assembled by `list_instance_amis`; `CreationDate` is
abstracted to epoch seconds (the ISO datetime parse is order-preserving). -/
structure Ami where
  imageId : String
  name : String := "N/A"
  state : String := ""
  creationDate : Int
  description : String := ""
  deriving Repr, DecidableEq

/-- Return value of `list_instance_amis`. -/
structure AmisResult where
  success : Bool
  amis : List Ami := []
  count : Nat := 0
  error : Option String := none
  deriving Repr, DecidableEq

/-- Return value of `check_ami_backup_status`.  A key missing from the
Python dict is `none` or the `Bool` default `false`, matching the engine
reading it with `.get('has_recent_backup', False)`. -/
structure BackupStatus where
  success : Bool
  has_backup : Bool := false
  has_recent_backup : Bool := false
  latest_ami : Option Ami := none
  message : Option String := none
  recommendation : Option String := none
  error : Option String := none
  deriving Repr, DecidableEq

/-- Instance data the terminate flow reads; the Name tag extraction is
abstracted to a `name` field. -/
structure InstanceInfo where
  name : String
  instanceType : String
  state : String
  deriving Repr, DecidableEq

structure InstanceDetails where
  instance_id : String
  name : String
  type : String
  state : String
  deriving Repr, DecidableEq

/-- Volume data the delete flow reads. -/
structure VolumeInfo where
  attachments : List (String × String) := []
  deriving Repr, DecidableEq

/-- Mutating Resource-Backend invocations, recorded in order. -/
inductive BackendCall where
  | terminateInstances (instance_id : String)
  | deleteVolume (volume_id : String)
  deriving Repr, DecidableEq

/-- Result dict of an engine action; keys absent from a given Python
return value are `none` / default. -/
structure ActionResult where
  success : Bool
  error : Option String := none
  requires_confirmation : Bool := false
  confirmation_token : Option String := none
  message : Option String := none
  recommendation : Option String := none
  backup_status : Option BackupStatus := none
  instance_details : Option InstanceDetails := none
  instance_id : Option String := none
  instance_name : Option String := none
  volume_id : Option String := none
  state : Option String := none
  deriving Repr, DecidableEq

/-- Mutable state of one run: wall clock (`int(time.time())`), the two
DynamoDB tables, and the trace of mutating backend calls. -/
structure St where
  now : Nat
  confirmations : List TokenRecord := []
  logs : List LogRecord := []
  calls : List BackendCall := []
  deriving Repr, DecidableEq

/-- Environment: read-only AWS responses, identifier generation, and
whether the audit-log `put_item` raises (the `except` in `log_action`). -/
structure Env where
  logPutFails : Bool := false
  logFailMsg : String := "put_item failed"
  uuid : Nat → String
  nowIso : String
  describeInstances : String → Except String (Option InstanceInfo)
  describeImages : String → Except String (List Ami)
  describeVolumes : String → Except String VolumeInfo
  terminateStateOf : String → String
  runOther : String → Params → St → ActionResult × St

/-! ### DynamoDB key-value primitives for the confirmation table -/

def findToken (l : List TokenRecord) (t : String) : Option TokenRecord :=
  l.find? (fun r => r.token == t)

/-- `put_item` overwrites by key. -/
def putToken (r : TokenRecord) (l : List TokenRecord) : List TokenRecord :=
  r :: l.filter (fun x => !(x.token == r.token))

def deleteToken (l : List TokenRecord) (t : String) : List TokenRecord :=
  l.filter (fun x => !(x.token == t))

/-! ### Audit log (log_action, lines 42-70) -/

def log_action (env : Env) (st : St) (action : String) (parameters : String) (status : String)
    (result : Option String := none) (error : Option String := none)
    (user_query : Option String := none) (user_email : Option String := none) :
    LogResult × St :=
  if env.logPutFails then
    ({ logged := false, error := some env.logFailMsg }, st)
  else
    let item : LogRecord :=
      { log_id := env.uuid st.logs.length
        timestamp := env.nowIso
        action := action
        parameters := parameters
        status := status
        user_query := user_query.getD ""
        user_email := user_email.getD "anonymous"
        ttl := st.now + 7776000
        result := result
        error := error }
    ({ logged := true, log_id := some item.log_id }, { st with logs := st.logs ++ [item] })

/-! ### Confirmation system (lines 104-152) -/

def generate_confirmation_token (env : Env) (st : St) (action : String) (parameters : Params) :
    Option String × St :=
  let tok := tokenValueStr action (serializeParams parameters) (toString st.now)
  let item : TokenRecord :=
    { token := tok
      action := action
      parameters := serializeParams parameters
      created_at := env.nowIso
      expires_at := st.now + 300
      ttl := st.now + 300 }
  (some tok, { st with confirmations := putToken item st.confirmations })

def verify_confirmation_token (st : St) (token : String) : VerifyResult × St :=
  match findToken st.confirmations token with
  | none => ({ valid := false, error := some "Invalid confirmation token" }, st)
  | some token_data =>
    if st.now > token_data.expires_at then
      ({ valid := false, error := some "Token expired (5 min limit)" },
       { st with confirmations := deleteToken st.confirmations token })
    else
      ({ valid := true, action := some token_data.action, parameters := some token_data.parameters },
       { st with confirmations := deleteToken st.confirmations token })

/-! ### Budget guard (check_budget_limits, lines 154-171); costs as exact
rationals -/

structure BudgetDecision where
  allowed : Bool
  reason : Option String := none
  hourly_cost : ℚ
  limit : Option ℚ := none
  monthly_cost : ℚ
  deriving Repr, DecidableEq

def INSTANCE_PRICING : List (String × ℚ) :=
  [("t3.nano", 0.0052), ("t3.micro", 0.0104), ("t3.small", 0.0208),
   ("t3.medium", 0.0416), ("t3.large", 0.0832), ("t3.xlarge", 0.1664),
   ("t3.2xlarge", 0.3328), ("t2.micro", 0.0116), ("t2.small", 0.023),
   ("t2.medium", 0.0464), ("t2.large", 0.0928), ("m5.large", 0.096),
   ("m5.xlarge", 0.192), ("m5.2xlarge", 0.384), ("m5.4xlarge", 0.768),
   ("c5.large", 0.085), ("c5.xlarge", 0.17), ("c5.2xlarge", 0.34),
   ("r5.large", 0.126), ("r5.xlarge", 0.252), ("r5.2xlarge", 0.504)]

/-- `INSTANCE_PRICING.get(instance_type, 0)`. -/
def lookupPrice (instance_type : String) : ℚ :=
  ((INSTANCE_PRICING.find? (fun p => p.1 == instance_type)).map (fun p => p.2)).getD 0

/-- The comparison/result construction of `check_budget_limits`, with the
looked-up hourly cost as an argument. -/
def budget_decision (hourly_cost maxPerHour : ℚ) : BudgetDecision :=
  if hourly_cost > maxPerHour then
    { allowed := false
      reason := some "Instance type exceeds budget limit"
      hourly_cost := hourly_cost
      limit := some maxPerHour
      monthly_cost := hourly_cost * 730 }
  else
    { allowed := true, hourly_cost := hourly_cost, monthly_cost := hourly_cost * 730 }

/-- `check_budget_limits`; `MAX_INSTANCE_COST_PER_HOUR` (an environment
variable in the source) is the first argument. -/
def check_budget_limits (maxPerHour : ℚ) (instance_type : String) : BudgetDecision :=
  budget_decision (lookupPrice instance_type) maxPerHour

/-! ### Backup guard (lines 177-205 and 269-320) -/

def insertByDateDesc (a : Ami) : List Ami → List Ami
  | [] => [a]
  | b :: t => if a.creationDate ≥ b.creationDate then a :: b :: t else b :: insertByDateDesc a t

/-- `amis.sort(key=CreationDate, reverse=True)`. -/
def sortByDateDesc (l : List Ami) : List Ami := l.foldr insertByDateDesc []

def list_instance_amis (env : Env) (instance_id : String) : AmisResult :=
  match env.describeImages instance_id with
  | Except.error e => { success := false, error := some e }
  | Except.ok images =>
    let amis := sortByDateDesc images
    { success := true, amis := amis, count := amis.length }

def check_ami_backup_status (env : Env) (st : St) (instance_id : String) : BackupStatus :=
  let amis_result := list_instance_amis env instance_id
  if amis_result.success = false then
    { success := false, error := amis_result.error }
  else
    match amis_result.amis with
    | [] =>
      { success := true
        has_backup := false
        message := some "No AMI backups found for this instance"
        recommendation := some "Create an AMI backup before proceeding" }
    | amis =>
      let cutoff : Int := (st.now : Int) - 7 * 86400
      let recent_amis := amis.filter (fun ami => ami.creationDate > cutoff)
      match recent_amis with
      | [] =>
        { success := true
          has_backup := true
          has_recent_backup := false
          latest_ami := amis.head?
          message := some "Latest AMI backup is older than 7 days"
          recommendation := some "Consider creating a fresh AMI backup" }
      | latest :: _ =>
        { success := true
          has_backup := true
          has_recent_backup := true
          latest_ami := some latest
          message := some "Recent AMI backup found" }

/-! ### terminate_ec2_instance (lines 562-626)

The backup gate in the source is two nested `if`s
(`if not skip_backup:` then `if success and not has_recent_backup:`);
`check_ami_backup_status` is effect-free here, so the gate is the single
conjunction below.  `terminate_instances` failures are not modelled (the
backend call is recorded in the trace and its reported state read from
the environment). -/

def terminate_ec2_instance (env : Env) (st : St) (instance_id : String)
    (confirmation_token : Option String := none) (skip_backup : Bool := false) :
    ActionResult × St :=
  match env.describeInstances instance_id with
  | Except.error e =>
    let st1 := (log_action env st "terminate_instance"
      (serializeParams [("instance_id", instance_id)]) "failed" none (some e)).2
    ({ success := false, error := some e }, st1)
  | Except.ok none =>
    ({ success := false, error := some s!"Instance {instance_id} not found" }, st)
  | Except.ok (some inst) =>
    let bs := check_ami_backup_status env st instance_id
    if skip_backup = false ∧ bs.success = true ∧ bs.has_recent_backup = false then
      let st1 := (log_action env st "terminate_instance"
        (serializeParams [("instance_id", instance_id)]) "requires_confirmation"
        (some (serializeParams [("reason", "no_recent_backup")]))).2
      ({ success := false
         requires_confirmation := true
         backup_status := some bs
         message := some "No recent AMI backup. Create AMI first or confirm to proceed."
         recommendation := some ("Run: \x27Create AMI backup for " ++ instance_id ++ "\x27") }, st1)
    else
      match confirmation_token with
      | none =>
        let tokOpt := (generate_confirmation_token env st "terminate_instance"
          [("instance_id", instance_id)]).1
        let st1 := (generate_confirmation_token env st "terminate_instance"
          [("instance_id", instance_id)]).2
        let st2 := (log_action env st1 "terminate_instance"
          (serializeParams [("instance_id", instance_id)]) "requires_confirmation").2
        let tokStr := tokOpt.getD "None"
        ({ success := false
           requires_confirmation := true
           confirmation_token := tokOpt
           instance_details := some
             { instance_id := instance_id, name := inst.name
               type := inst.instanceType, state := inst.state }
           message := some s!"⚠️ DESTRUCTIVE: Terminating {inst.name}. Token: {tokStr}" }, st2)
      | some ctok =>
        let token_verify := (verify_confirmation_token st ctok).1
        let st1 := (verify_confirmation_token st ctok).2
        if token_verify.valid = false then
          ({ success := false, error := token_verify.error }, st1)
        else
          let st2 := { st1 with calls := st1.calls ++ [BackendCall.terminateInstances instance_id] }
          let current_state := env.terminateStateOf instance_id
          let st3 := (log_action env st2 "terminate_instance"
            (serializeParams [("instance_id", instance_id)]) "success").2
          ({ success := true
             instance_id := some instance_id
             instance_name := some inst.name
             state := some current_state
             message := some s!"Instance {instance_id} termination initiated" }, st3)

/-! ### delete_ebs_volume (lines 845-881) -/

def delete_ebs_volume (env : Env) (st : St) (volume_id : String)
    (confirmation_token : Option String := none) : ActionResult × St :=
  match env.describeVolumes volume_id with
  | Except.error e =>
    let st1 := (log_action env st "delete_volume"
      (serializeParams [("volume_id", volume_id)]) "failed" none (some e)).2
    ({ success := false, error := some e }, st1)
  | Except.ok volume =>
    if volume.attachments ≠ [] then
      ({ success := false, error := some "Volume attached. Detach first." }, st)
    else
      match confirmation_token with
      | none =>
        let tokOpt := (generate_confirmation_token env st "delete_volume"
          [("volume_id", volume_id)]).1
        let st1 := (generate_confirmation_token env st "delete_volume"
          [("volume_id", volume_id)]).2
        let st2 := (log_action env st1 "delete_volume"
          (serializeParams [("volume_id", volume_id)]) "requires_confirmation").2
        let tokStr := tokOpt.getD "None"
        ({ success := false
           requires_confirmation := true
           confirmation_token := tokOpt
           message := some s!"⚠️ Confirm deletion. Token: {tokStr}" }, st2)
      | some ctok =>
        let token_verify := (verify_confirmation_token st ctok).1
        let st1 := (verify_confirmation_token st ctok).2
        if token_verify.valid = false then
          ({ success := false, error := token_verify.error }, st1)
        else
          let st2 := { st1 with calls := st1.calls ++ [BackendCall.deleteVolume volume_id] }
          let st3 := (log_action env st2 "delete_volume"
            (serializeParams [("volume_id", volume_id)]) "success").2
          ({ success := true
             volume_id := some volume_id
             message := some s!"Volume {volume_id} deleted" }, st3)

/-! ### process_ec2_action (lines 939-982)

The dispatch chain is preserved; handlers other than the two guarded
destructive flows are supplied by the environment (`runOther`), since the
claims constrain only the dispatch itself and the guarded flows. -/

def KNOWN_ACTIONS : List String :=
  ["list_instances", "launch_instance", "terminate_instance", "start_instance",
   "stop_instance", "change_instance_type", "check_ami_backup", "create_ami_backup",
   "list_amis", "create_cpu_alarm", "create_status_alarm", "list_alarms",
   "delete_alarm", "list_volumes", "create_volume", "attach_volume",
   "detach_volume", "delete_volume", "get_action_logs"]

def getParam (params : Params) (k : String) : Option String :=
  (params.find? (fun p => p.1 == k)).map (fun p => p.2)

/-- `action.lower()`; the supported action names are ASCII, for which
per-character lowering is exact. -/
def strToLower (s : String) : String := String.mk (s.data.map Char.toLower)

def process_ec2_action (env : Env) (st : St) (action : String) (params : Params) :
    ActionResult × St :=
  let a := strToLower action
  if a == "list_instances" then env.runOther "list_instances" params st
  else if a == "launch_instance" then env.runOther "launch_instance" params st
  else if a == "terminate_instance" then
    terminate_ec2_instance env st ((getParam params "instance_id").getD "")
      (getParam params "confirmation_token") (getParam params "skip_backup" == some "True")
  else if a == "start_instance" then env.runOther "start_instance" params st
  else if a == "stop_instance" then env.runOther "stop_instance" params st
  else if a == "change_instance_type" then env.runOther "change_instance_type" params st
  else if a == "check_ami_backup" then env.runOther "check_ami_backup" params st
  else if a == "create_ami_backup" then env.runOther "create_ami_backup" params st
  else if a == "list_amis" then env.runOther "list_amis" params st
  else if a == "create_cpu_alarm" then env.runOther "create_cpu_alarm" params st
  else if a == "create_status_alarm" then env.runOther "create_status_alarm" params st
  else if a == "list_alarms" then env.runOther "list_alarms" params st
  else if a == "delete_alarm" then env.runOther "delete_alarm" params st
  else if a == "list_volumes" then env.runOther "list_volumes" params st
  else if a == "create_volume" then env.runOther "create_volume" params st
  else if a == "attach_volume" then env.runOther "attach_volume" params st
  else if a == "detach_volume" then env.runOther "detach_volume" params st
  else if a == "delete_volume" then
    delete_ebs_volume env st ((getParam params "volume_id").getD "")
      (getParam params "confirmation_token")
  else if a == "get_action_logs" then env.runOther "get_action_logs" params st
  else ({ success := false, error := some ("Unknown action: " ++ a) }, st)


/-! ### Concrete fixtures used by witnesses and counterexamples -/

/-- Environment with the instances and an unattached volume present, and no
AMI backups (describe_images returns an empty list, so the backup check
succeeds with `has_recent_backup = false`). -/
def envOk : Env :=
  { uuid := fun n => "log-" ++ toString n
    nowIso := "2026-01-01T00:00:00"
    describeInstances := fun i =>
      if (i == "i-1") || (i == "i-2") then
        Except.ok (some { name := "web", instanceType := "t3.micro", state := "running" })
      else Except.ok none
    describeImages := fun _ => Except.ok []
    describeVolumes := fun v =>
      if v == "vol-1" then Except.ok { attachments := [] }
      else Except.error "InvalidVolume.NotFound"
    terminateStateOf := fun _ => "shutting-down"
    runOther := fun _ _ st => ({ success := true }, st) }

/-- Like `envOk` but the backend image listing raises, so the backup-status
check itself fails (`success = false`). -/
def envErr : Env :=
  { envOk with describeImages := fun _ => Except.error "UnauthorizedOperation" }

def stEmpty : St := { now := 1000 }

def tokRec1 : TokenRecord :=
  { token := "TOK1"
    action := "terminate_instance"
    parameters := serializeParams [("instance_id", "i-1")]
    created_at := "2026-01-01T00:00:00"
    expires_at := 1300
    ttl := 1300 }

/-- State holding a live (unexpired) token bound to terminating `i-1`. -/
def stTok : St := { now := 1000, confirmations := [tokRec1] }

/-- State holding that same token past its expiry. -/
def stExp : St := { now := 1000, confirmations := [{ tokRec1 with expires_at := 700, ttl := 700 }] }

/-! ### Helper lemmas -/

theorem findToken_deleteToken (l : List TokenRecord) (t : String) :
    findToken (deleteToken l t) t = none := by
  rw [findToken, List.find?_eq_none]
  intro x hx
  have h2 := (List.mem_filter.mp hx).2
  simp only [Bool.not_eq_true'] at h2
  simp [h2]

theorem findToken_putToken (r : TokenRecord) (l : List TokenRecord) :
    findToken (putToken r l) r.token = some r := by
  simp [findToken, putToken, List.find?_cons_of_pos]

@[simp] theorem log_action_snd_confirmations (env : Env) (st : St) (a p s : String)
    (r e uq ue : Option String) :
    (log_action env st a p s r e uq ue).2.confirmations = st.confirmations := by
  unfold log_action; split <;> rfl

@[simp] theorem log_action_snd_calls (env : Env) (st : St) (a p s : String)
    (r e uq ue : Option String) :
    (log_action env st a p s r e uq ue).2.calls = st.calls := by
  unfold log_action; split <;> rfl

@[simp] theorem log_action_snd_now (env : Env) (st : St) (a p s : String)
    (r e uq ue : Option String) :
    (log_action env st a p s r e uq ue).2.now = st.now := by
  unfold log_action; split <;> rfl

@[simp] theorem verify_snd_calls (st : St) (t : String) :
    (verify_confirmation_token st t).2.calls = st.calls := by
  unfold verify_confirmation_token
  cases hf : findToken st.confirmations t
  · simp only [hf]
  · simp only [hf]; split <;> rfl

@[simp] theorem verify_snd_logs (st : St) (t : String) :
    (verify_confirmation_token st t).2.logs = st.logs := by
  unfold verify_confirmation_token
  cases hf : findToken st.confirmations t
  · simp only [hf]
  · simp only [hf]; split <;> rfl

@[simp] theorem verify_snd_now (st : St) (t : String) :
    (verify_confirmation_token st t).2.now = st.now := by
  unfold verify_confirmation_token
  cases hf : findToken st.confirmations t
  · simp only [hf]
  · simp only [hf]; split <;> rfl

theorem verify_snd_confirmations_of_found (st : St) (t : String) (r : TokenRecord)
    (h : findToken st.confirmations t = some r) :
    (verify_confirmation_token st t).2.confirmations = deleteToken st.confirmations t := by
  unfold verify_confirmation_token
  simp only [h]
  split <;> rfl

theorem verify_not_found (st : St) (t : String)
    (h : findToken st.confirmations t = none) :
    (verify_confirmation_token st t).1 =
      { valid := false, error := some "Invalid confirmation token" } := by
  unfold verify_confirmation_token
  simp only [h]

/-- C3: token verification is single-use and fail-closed: for every stored
token, any verification attempt (valid or expired) deletes the token record,
so a second verification of the same token returns the invalid
"Invalid confirmation token" (not_found) result. -/
theorem C3_token_single_use_fail_closed (st : St) (tok : String) (r : TokenRecord)
    (h : findToken st.confirmations tok = some r) :
    findToken (verify_confirmation_token st tok).2.confirmations tok = none ∧
    (verify_confirmation_token (verify_confirmation_token st tok).2 tok).1 =
      { valid := false, error := some "Invalid confirmation token" } := by
  have h1 := verify_snd_confirmations_of_found st tok r h
  have h2 : findToken (verify_confirmation_token st tok).2.confirmations tok = none := by
    rw [h1]; exact findToken_deleteToken _ _
  exact ⟨h2, verify_not_found _ _ h2⟩

theorem C3_token_single_use_fail_closed_witness :
    findToken stTok.confirmations "TOK1" = some tokRec1 ∧
    (findToken (verify_confirmation_token stTok "TOK1").2.confirmations "TOK1" = none ∧
     (verify_confirmation_token (verify_confirmation_token stTok "TOK1").2 "TOK1").1 =
       { valid := false, error := some "Invalid confirmation token" }) :=
  ⟨rfl, C3_token_single_use_fail_closed stTok "TOK1" tokRec1 rfl⟩

/-- C4: a token whose 300-second expiry has passed at verification time
(`now > expires_at`) is never honored: verification returns the invalid
"Token expired (5 min limit)" result and deletes the record (even though
the record was still present, i.e. passive TTL reclamation had not run);
and every token issued by `generate_confirmation_token` is stored with
`expires_at = ttl = now + 300`. -/
theorem C4_expired_token_rejected (st : St) (tok : String) (r : TokenRecord)
    (h : findToken st.confirmations tok = some r) (hexp : st.now > r.expires_at) :
    ((verify_confirmation_token st tok).1 =
       { valid := false, error := some "Token expired (5 min limit)" } ∧
     findToken (verify_confirmation_token st tok).2.confirmations tok = none) ∧
    ∀ (env : Env) (st' : St) (a : String) (p : Params),
      ∃ item : TokenRecord,
        (generate_confirmation_token env st' a p).1 = some item.token ∧
        findToken (generate_confirmation_token env st' a p).2.confirmations item.token =
          some item ∧
        item.expires_at = st'.now + 300 ∧ item.ttl = st'.now + 300 := by
  constructor
  · constructor
    · unfold verify_confirmation_token
      simp only [h]
      rw [if_pos hexp]
    · rw [verify_snd_confirmations_of_found st tok r h]
      exact findToken_deleteToken _ _
  · intro env st' a p
    refine ⟨{ token := tokenValueStr a (serializeParams p) (toString st'.now)
              action := a
              parameters := serializeParams p
              created_at := env.nowIso
              expires_at := st'.now + 300
              ttl := st'.now + 300 }, rfl, ?_, rfl, rfl⟩
    exact findToken_putToken _ _

theorem C4_expired_token_rejected_witness :
    (findToken stExp.confirmations "TOK1" = some { tokRec1 with expires_at := 700, ttl := 700 } ∧
     stExp.now > 700) ∧
    ((verify_confirmation_token stExp "TOK1").1 =
       { valid := false, error := some "Token expired (5 min limit)" } ∧
     findToken (verify_confirmation_token stExp "TOK1").2.confirmations "TOK1" = none) :=
  ⟨⟨rfl, by decide⟩,
   (C4_expired_token_rejected stExp "TOK1" { tokRec1 with expires_at := 700, ttl := 700 }
     rfl (by decide)).1⟩

/-- C8: the Budget Guard compares the hourly cost directly against the
per-hour ceiling (allowed iff not hourly > ceiling), reports
monthly_cost = hourly * 730, treats unknown resource classes as zero cost
and therefore allows them (for a nonnegative ceiling); in particular
hourly cost 0.20 against ceiling 0.10 gives allowed = false and
monthly_cost = 146. -/
theorem C8_budget_guard (t : String) (maxPerHour : ℚ) :
    ((check_budget_limits maxPerHour t).allowed = true ↔ ¬ lookupPrice t > maxPerHour) ∧
    (check_budget_limits maxPerHour t).hourly_cost = lookupPrice t ∧
    (check_budget_limits maxPerHour t).monthly_cost = lookupPrice t * 730 ∧
    (INSTANCE_PRICING.find? (fun p => p.1 == t) = none → lookupPrice t = 0) ∧
    (INSTANCE_PRICING.find? (fun p => p.1 == t) = none → 0 ≤ maxPerHour →
      (check_budget_limits maxPerHour t).allowed = true) ∧
    (budget_decision 0.20 0.10).allowed = false ∧
    (budget_decision 0.20 0.10).monthly_cost = 146 := by
  have hcheck : ∀ h m : ℚ, ((budget_decision h m).allowed = true ↔ ¬ h > m) ∧
      (budget_decision h m).hourly_cost = h ∧ (budget_decision h m).monthly_cost = h * 730 := by
    intro h m
    unfold budget_decision
    split
    · next hgt => simp [hgt]
    · next hle => simp [hle]
  refine ⟨(hcheck _ _).1, (hcheck _ _).2.1, (hcheck _ _).2.2, ?_, ?_, ?_, ?_⟩
  · intro hnone
    unfold lookupPrice
    rw [hnone]
    rfl
  · intro hnone hnn
    have h0 : lookupPrice t = 0 := by unfold lookupPrice; rw [hnone]; rfl
    show (budget_decision (lookupPrice t) maxPerHour).allowed = true
    rw [(hcheck (lookupPrice t) maxPerHour).1, h0]
    exact fun hgt => absurd (lt_of_le_of_lt hnn hgt) (lt_irrefl _)
  · norm_num [budget_decision]
  · norm_num [budget_decision]

theorem C8_budget_guard_witness :
    (INSTANCE_PRICING.find? (fun p => p.1 == "p9.mega") = none ∧ (0 : ℚ) ≤ 1) ∧
    ((check_budget_limits 1 "p9.mega").allowed = true ∧
     (budget_decision 0.20 0.10).allowed = false ∧
     (budget_decision 0.20 0.10).monthly_cost = 146) :=
  ⟨⟨by decide, by decide⟩,
   (C8_budget_guard "p9.mega" 1).2.2.2.2.1 (by decide) (by decide),
   (C8_budget_guard "p9.mega" 1).2.2.2.2.2.1,
   (C8_budget_guard "p9.mega" 1).2.2.2.2.2.2⟩

/-- C9 counterexample: an unknown action is rejected with the
"Unknown action: ..." error, but its state is returned unchanged — in
particular with an empty audit log, so no record with status failed (or
any record at all) is written for the rejection. -/
theorem C9_counterexample_no_audit_record :
    (process_ec2_action envOk stEmpty "plant_tree" []).1.success = false ∧
    (process_ec2_action envOk stEmpty "plant_tree" []).1.error =
      some "Unknown action: plant_tree" ∧
    (process_ec2_action envOk stEmpty "plant_tree" []).2.logs = [] := by
  exact ⟨rfl, rfl, rfl⟩

/-- C9 (amended): a request whose lowercased action name is outside the
closed set of supported actions is rejected with the
"Unknown action: ..." error before any guard, token operation, backend
call or log write — the state is returned entirely unchanged, so no audit
record is written for the rejection. -/
theorem C9_amended_unknown_action (env : Env) (st : St) (action : String) (params : Params)
    (h : strToLower action ∉ KNOWN_ACTIONS) :
    process_ec2_action env st action params =
      ({ success := false, error := some ("Unknown action: " ++ strToLower action) }, st) := by
  have hc : ∀ s : String, s ∈ KNOWN_ACTIONS → ¬(strToLower action == s) = true := by
    intro s hs hb
    exact h (eq_of_beq hb ▸ hs)
  simp only [process_ec2_action]
  rw [if_neg (hc _ (by decide)), if_neg (hc _ (by decide)), if_neg (hc _ (by decide)),
      if_neg (hc _ (by decide)), if_neg (hc _ (by decide)), if_neg (hc _ (by decide)),
      if_neg (hc _ (by decide)), if_neg (hc _ (by decide)), if_neg (hc _ (by decide)),
      if_neg (hc _ (by decide)), if_neg (hc _ (by decide)), if_neg (hc _ (by decide)),
      if_neg (hc _ (by decide)), if_neg (hc _ (by decide)), if_neg (hc _ (by decide)),
      if_neg (hc _ (by decide)), if_neg (hc _ (by decide)), if_neg (hc _ (by decide)),
      if_neg (hc _ (by decide))]

theorem C9_amended_unknown_action_witness :
    strToLower "plant_tree" ∉ KNOWN_ACTIONS ∧
    process_ec2_action envOk stEmpty "plant_tree" [] =
      ({ success := false, error := some ("Unknown action: " ++ strToLower "plant_tree") }, stEmpty) :=
  ⟨by decide, C9_amended_unknown_action envOk stEmpty "plant_tree" [] (by decide)⟩

/-- C1 (evaluation at the failing input): the confirmation store holds a
live token bound to action terminate_instance with parameters
instance_id = i-1, yet presenting that token with a request for instance
i-2 verifies successfully and the backend terminate call IS made on i-2 —
`verify_confirmation_token` returns the bound action/parameters but no
caller compares them with the current request, so there is no
parameter-mismatch rejection. -/
theorem C1_token_params_not_compared :
    stTok.confirmations = [tokRec1] ∧
    tokRec1.action = "terminate_instance" ∧
    tokRec1.parameters = serializeParams [("instance_id", "i-1")] ∧
    stTok.now ≤ tokRec1.expires_at ∧
    (terminate_ec2_instance envOk stTok "i-2" (some "TOK1") true).1.success = true ∧
    (terminate_ec2_instance envOk stTok "i-2" (some "TOK1") true).1.error = none ∧
    (terminate_ec2_instance envOk stTok "i-2" (some "TOK1") true).2.calls =
      [BackendCall.terminateInstances "i-2"] :=
  ⟨rfl, rfl, rfl, by decide, rfl, rfl, rfl⟩

/-- C6: the terminate-instance backup gate is fail-open on guard error —
if the backup-status check itself fails (success = false), terminating
with skip_backup = false behaves exactly like skip_backup = true: the
backup block is skipped and control proceeds to the confirmation-token
gate. -/
theorem C6_backup_check_failure_fail_open (env : Env) (st : St) (iid : String)
    (tok : Option String)
    (h : (check_ami_backup_status env st iid).success = false) :
    terminate_ec2_instance env st iid tok false =
      terminate_ec2_instance env st iid tok true := by
  unfold terminate_ec2_instance
  cases hd : env.describeInstances iid with
  | error e => rfl
  | ok oi =>
    cases oi with
    | none => rfl
    | some inst =>
      dsimp only
      have hL : ¬((false = false) ∧
          (check_ami_backup_status env st iid).success = true ∧
          (check_ami_backup_status env st iid).has_recent_backup = false) := by
        rintro ⟨-, hs, -⟩
        rw [h] at hs
        cases hs
      have hR : ¬((true = false) ∧
          (check_ami_backup_status env st iid).success = true ∧
          (check_ami_backup_status env st iid).has_recent_backup = false) := by
        rintro ⟨hs, -⟩
        cases hs
      rw [if_neg hL, if_neg hR]

theorem C6_backup_check_failure_fail_open_witness :
    (check_ami_backup_status envErr stEmpty "i-1").success = false ∧
    terminate_ec2_instance envErr stEmpty "i-1" none false =
      terminate_ec2_instance envErr stEmpty "i-1" none true :=
  ⟨rfl, C6_backup_check_failure_fail_open envErr stEmpty "i-1" none rfl⟩

/-- C5: when the backup check succeeds with no sufficiently recent backup
and the caller has not set skip_backup, the terminate flow blocks with the
backup recommendation before the backend call — for EVERY supplied
confirmation token (the token gate is never reached, no token is consumed,
no backend call is made); the gate is skipped only by the explicit
skip_backup flag (with it set, the result never carries the backup block). -/
theorem C5_backup_gate_blocks (env : Env) (st : St) (iid : String)
    (tok : Option String) (inst : InstanceInfo)
    (hi : env.describeInstances iid = Except.ok (some inst))
    (hs : (check_ami_backup_status env st iid).success = true)
    (hr : (check_ami_backup_status env st iid).has_recent_backup = false) :
    (terminate_ec2_instance env st iid tok false).1.success = false ∧
    (terminate_ec2_instance env st iid tok false).1.requires_confirmation = true ∧
    (terminate_ec2_instance env st iid tok false).1.backup_status =
      some (check_ami_backup_status env st iid) ∧
    (terminate_ec2_instance env st iid tok false).1.confirmation_token = none ∧
    (terminate_ec2_instance env st iid tok false).1.recommendation =
      some ("Run: \x27Create AMI backup for " ++ iid ++ "\x27") ∧
    (terminate_ec2_instance env st iid tok false).2.calls = st.calls ∧
    (terminate_ec2_instance env st iid tok false).2.confirmations = st.confirmations ∧
    (terminate_ec2_instance env st iid tok true).1.backup_status = none := by
  have hred : terminate_ec2_instance env st iid tok false =
      ({ success := false
         requires_confirmation := true
         backup_status := some (check_ami_backup_status env st iid)
         message := some "No recent AMI backup. Create AMI first or confirm to proceed."
         recommendation := some ("Run: \x27Create AMI backup for " ++ iid ++ "\x27") },
       (log_action env st "terminate_instance"
         (serializeParams [("instance_id", iid)]) "requires_confirmation"
         (some (serializeParams [("reason", "no_recent_backup")]))).2) := by
    unfold terminate_ec2_instance
    simp only [hi]
    rw [if_pos ⟨trivial, hs, hr⟩]
  have hskip : (terminate_ec2_instance env st iid tok true).1.backup_status = none := by
    unfold terminate_ec2_instance
    simp only [hi]
    rw [if_neg (by rintro ⟨hx, -⟩; cases hx)]
    cases tok with
    | none => rfl
    | some ctok =>
      dsimp only
      split
      · rfl
      · rfl
  rw [hred]
  exact ⟨rfl, rfl, rfl, rfl, rfl, log_action_snd_calls _ _ _ _ _ _ _ _ _,
         log_action_snd_confirmations _ _ _ _ _ _ _ _ _, hskip⟩

theorem C5_backup_gate_blocks_witness :
    (envOk.describeInstances "i-1" =
       Except.ok (some { name := "web", instanceType := "t3.micro", state := "running" }) ∧
     (check_ami_backup_status envOk stTok "i-1").success = true ∧
     (check_ami_backup_status envOk stTok "i-1").has_recent_backup = false) ∧
    ((terminate_ec2_instance envOk stTok "i-1" (some "TOK1") false).1.requires_confirmation = true ∧
     (terminate_ec2_instance envOk stTok "i-1" (some "TOK1") false).2.calls = stTok.calls ∧
     (terminate_ec2_instance envOk stTok "i-1" (some "TOK1") false).2.confirmations =
       stTok.confirmations) :=
  ⟨⟨rfl, rfl, rfl⟩,
   (C5_backup_gate_blocks envOk stTok "i-1" (some "TOK1")
      { name := "web", instanceType := "t3.micro", state := "running" } rfl rfl rfl).2.1,
   (C5_backup_gate_blocks envOk stTok "i-1" (some "TOK1")
      { name := "web", instanceType := "t3.micro", state := "running" } rfl rfl rfl).2.2.2.2.2.1,
   (C5_backup_gate_blocks envOk stTok "i-1" (some "TOK1")
      { name := "web", instanceType := "t3.micro", state := "running" } rfl rfl rfl).2.2.2.2.2.2.1⟩

/-- C2: an irreversible action requested without a confirmation token —
terminate_instance (with the backup precondition already satisfied: either
skip_backup set or a recent backup present) and delete_volume (volume
unattached) — returns requires_confirmation carrying a freshly issued
token (present in the store, bound to the action, expiring in 300 s) and
the mutating backend call is never made (the call trace is unchanged). -/
theorem C2_no_token_requires_confirmation (env : Env) (st : St) (iid vid : String)
    (inst : InstanceInfo) (vol : VolumeInfo) (skip : Bool)
    (hi : env.describeInstances iid = Except.ok (some inst))
    (hb : skip = false → ¬((check_ami_backup_status env st iid).success = true ∧
          (check_ami_backup_status env st iid).has_recent_backup = false))
    (hv : env.describeVolumes vid = Except.ok vol)
    (ha : vol.attachments = []) :
    ((terminate_ec2_instance env st iid none skip).1.success = false ∧
     (terminate_ec2_instance env st iid none skip).1.requires_confirmation = true ∧
     (terminate_ec2_instance env st iid none skip).2.calls = st.calls ∧
     ∃ t item, (terminate_ec2_instance env st iid none skip).1.confirmation_token = some t ∧
       findToken (terminate_ec2_instance env st iid none skip).2.confirmations t = some item ∧
       item.action = "terminate_instance" ∧
       item.parameters = serializeParams [("instance_id", iid)] ∧
       item.expires_at = st.now + 300) ∧
    ((delete_ebs_volume env st vid none).1.success = false ∧
     (delete_ebs_volume env st vid none).1.requires_confirmation = true ∧
     (delete_ebs_volume env st vid none).2.calls = st.calls ∧
     ∃ t item, (delete_ebs_volume env st vid none).1.confirmation_token = some t ∧
       findToken (delete_ebs_volume env st vid none).2.confirmations t = some item ∧
       item.action = "delete_volume" ∧
       item.parameters = serializeParams [("volume_id", vid)] ∧
       item.expires_at = st.now + 300) := by
  constructor
  · have hred : terminate_ec2_instance env st iid none skip =
        ({ success := false
           requires_confirmation := true
           confirmation_token := (generate_confirmation_token env st "terminate_instance"
             [("instance_id", iid)]).1
           instance_details := some
             { instance_id := iid, name := inst.name
               type := inst.instanceType, state := inst.state }
           message := some (toString "⚠️ DESTRUCTIVE: Terminating " ++ toString inst.name ++
             toString ". Token: " ++
             toString ((generate_confirmation_token env st "terminate_instance"
               [("instance_id", iid)]).1.getD "None") ++ toString "") },
         (log_action env
           (generate_confirmation_token env st "terminate_instance" [("instance_id", iid)]).2
           "terminate_instance" (serializeParams [("instance_id", iid)])
           "requires_confirmation").2) := by
      unfold terminate_ec2_instance
      simp only [hi]
      rw [if_neg ?hc]
      case hc =>
        rintro ⟨hsf, hrest⟩
        cases skip with
        | false => exact hb rfl hrest
        | true => simp at hsf
    rw [hred]
    refine ⟨rfl, rfl, ?_, ?_⟩
    · rw [log_action_snd_calls]
      rfl
    · refine ⟨tokenValueStr "terminate_instance" (serializeParams [("instance_id", iid)])
        (toString st.now),
        { token := tokenValueStr "terminate_instance" (serializeParams [("instance_id", iid)])
            (toString st.now)
          action := "terminate_instance"
          parameters := serializeParams [("instance_id", iid)]
          created_at := env.nowIso
          expires_at := st.now + 300
          ttl := st.now + 300 }, rfl, ?_, rfl, rfl, rfl⟩
      rw [log_action_snd_confirmations]
      exact findToken_putToken _ _
  · have hred : delete_ebs_volume env st vid none =
        ({ success := false
           requires_confirmation := true
           confirmation_token := (generate_confirmation_token env st "delete_volume"
             [("volume_id", vid)]).1
           message := some (toString "⚠️ Confirm deletion. Token: " ++
             toString ((generate_confirmation_token env st "delete_volume"
               [("volume_id", vid)]).1.getD "None") ++ toString "") },
         (log_action env
           (generate_confirmation_token env st "delete_volume" [("volume_id", vid)]).2
           "delete_volume" (serializeParams [("volume_id", vid)])
           "requires_confirmation").2) := by
      unfold delete_ebs_volume
      simp only [hv]
      rw [if_neg (fun hne => hne ha)]
    rw [hred]
    refine ⟨rfl, rfl, ?_, ?_⟩
    · rw [log_action_snd_calls]
      rfl
    · refine ⟨tokenValueStr "delete_volume" (serializeParams [("volume_id", vid)])
        (toString st.now),
        { token := tokenValueStr "delete_volume" (serializeParams [("volume_id", vid)])
            (toString st.now)
          action := "delete_volume"
          parameters := serializeParams [("volume_id", vid)]
          created_at := env.nowIso
          expires_at := st.now + 300
          ttl := st.now + 300 }, rfl, ?_, rfl, rfl, rfl⟩
      rw [log_action_snd_confirmations]
      exact findToken_putToken _ _

theorem C2_no_token_requires_confirmation_witness :
    (envOk.describeInstances "i-1" =
       Except.ok (some { name := "web", instanceType := "t3.micro", state := "running" }) ∧
     envOk.describeVolumes "vol-1" = Except.ok { attachments := [] } ∧
     (([] : List (String × String)) = [])) ∧
    ((terminate_ec2_instance envOk stEmpty "i-1" none true).1.requires_confirmation = true ∧
     (terminate_ec2_instance envOk stEmpty "i-1" none true).2.calls = stEmpty.calls ∧
     (delete_ebs_volume envOk stEmpty "vol-1" none).1.requires_confirmation = true ∧
     (delete_ebs_volume envOk stEmpty "vol-1" none).2.calls = stEmpty.calls) := by
  have h := C2_no_token_requires_confirmation envOk stEmpty "i-1" "vol-1"
    { name := "web", instanceType := "t3.micro", state := "running" } { attachments := [] }
    true rfl (fun hft => nomatch hft) rfl rfl
  exact ⟨⟨rfl, rfl, rfl⟩, h.1.2.1, h.1.2.2.1, h.2.2.1, h.2.2.2.1⟩

/-! ### Digest bounds: every token value is a 48-bit truncation -/

def HstBounded (H : Hst) : Prop :=
  H.h0 < 4294967296 ∧ H.h1 < 4294967296 ∧ H.h2 < 4294967296 ∧ H.h3 < 4294967296 ∧
  H.h4 < 4294967296 ∧ H.h5 < 4294967296 ∧ H.h6 < 4294967296 ∧ H.h7 < 4294967296

theorem initH_bounded : HstBounded initH := by
  refine ⟨?_, ?_, ?_, ?_, ?_, ?_, ?_, ?_⟩ <;> decide

theorem compress_bounded (H : Hst) (ws16 : List Nat) : HstBounded (compress H ws16) := by
  refine ⟨?_, ?_, ?_, ?_, ?_, ?_, ?_, ?_⟩ <;>
    exact Nat.mod_lt _ (by decide)

theorem foldl_compress_bounded (l : List Nat) (f : Nat → List Nat) (H : Hst)
    (hH : HstBounded H) :
    HstBounded (l.foldl (fun A i => compress A (f i)) H) := by
  induction l generalizing H with
  | nil => exact hH
  | cons x xs ih => exact ih _ (compress_bounded _ _)

theorem sha256H_bounded (msg : List Nat) : HstBounded (sha256H msg) :=
  foldl_compress_bounded _ _ _ initH_bounded

theorem mul_add_lt {a b A : Nat} (ha : a < A) (hb : b < 4294967296) :
    a * 4294967296 + b < A * 4294967296 := by
  calc a * 4294967296 + b < a * 4294967296 + 4294967296 := by omega
    _ = (a + 1) * 4294967296 := by ring
    _ ≤ A * 4294967296 := Nat.mul_le_mul_right _ ha

theorem sha256Nat_lt (msg : List Nat) : sha256Nat msg < 2 ^ 256 := by
  obtain ⟨b0, b1, b2, b3, b4, b5, b6, b7⟩ := sha256H_bounded msg
  unfold sha256Nat
  have h2 := mul_add_lt b0 b1
  have h3 := mul_add_lt h2 b2
  have h4 := mul_add_lt h3 b3
  have h5 := mul_add_lt h4 b4
  have h6 := mul_add_lt h5 b5
  have h7 := mul_add_lt h6 b6
  have h8 := mul_add_lt h7 b7
  calc _ < 4294967296 * 4294967296 * 4294967296 * 4294967296 * 4294967296 * 4294967296 *
      4294967296 * 4294967296 := h8
    _ = 2 ^ 256 := by norm_num

theorem tokenNat_lt (a p t : List Nat) : tokenNat a p t < 2 ^ 48 := by
  unfold tokenNat
  refine (Nat.div_lt_iff_lt_mul (by positivity)).2 ?_
  calc sha256Nat (tokenData a p t) < 2 ^ 256 := sha256Nat_lt _
    _ = 2 ^ 48 * 2 ^ 208 := by norm_num

/-- C7 counterexample: it is NOT the case that any two distinct issuances
(differing in action, parameters, or issuance timestamp) yield distinct
token values.  The token is `hexdigest()[:12]`, a 48-bit truncation of
SHA-256, so the infinitely many possible issuances map into the
2^48-element token space and must collide. -/
theorem C7_counterexample_tokens_can_collide :
    ¬ (∀ (a1 p1 t1 a2 p2 t2 : String),
        (a1, p1, t1) ≠ (a2, p2, t2) →
        tokenValueStr a1 p1 t1 ≠ tokenValueStr a2 p2 t2) := by
  intro hcl
  let f : ℕ → Fin (2 ^ 48) := fun n =>
    ⟨tokenNat (strBytes (String.mk (List.replicate n (Char.ofNat 97)))) (strBytes "p")
       (strBytes "1700000000.0"), tokenNat_lt _ _ _⟩
  obtain ⟨n, m, hnm, hfe⟩ := Finite.exists_ne_map_eq_of_infinite f
  have hval : tokenNat (strBytes (String.mk (List.replicate n (Char.ofNat 97)))) (strBytes "p")
      (strBytes "1700000000.0") =
      tokenNat (strBytes (String.mk (List.replicate m (Char.ofNat 97)))) (strBytes "p")
      (strBytes "1700000000.0") := congrArg Fin.val hfe
  refine hcl (String.mk (List.replicate n (Char.ofNat 97))) "p" "1700000000.0"
    (String.mk (List.replicate m (Char.ofNat 97))) "p" "1700000000.0" ?_ ?_
  · intro he
    apply hnm
    have hstr : String.mk (List.replicate n (Char.ofNat 97)) =
        String.mk (List.replicate m (Char.ofNat 97)) := by
      simpa using he
    injection hstr with hd
    simpa using congrArg List.length hd
  · unfold tokenValueStr token_value
    exact congrArg hexUpper12 hval

/-- C7 (amended): each issued token value is the 12-uppercase-hex-character
(48-bit) truncation of the SHA-256 digest of `action:parameters:timestamp`
(so distinct issuances are not guaranteed distinct token values, but the
pre-hash inputs ARE distinct whenever the serialized timestamps differ),
and every issued token is stored with a 300-second absolute expiry
(`expires_at = ttl = now + 300`). -/
theorem C7_amended_token_derivation (env : Env) (st : St) (a : String) (p : Params)
    (x y t1 t2 : List Nat) :
    ((generate_confirmation_token env st a p).1 =
        some (hexUpper12 (tokenNat (strBytes a) (strBytes (serializeParams p))
          (strBytes (toString st.now)))) ∧
     tokenNat (strBytes a) (strBytes (serializeParams p)) (strBytes (toString st.now)) <
       2 ^ 48 ∧
     ∃ item, findToken (generate_confirmation_token env st a p).2.confirmations
          (tokenValueStr a (serializeParams p) (toString st.now)) = some item ∧
        item.action = a ∧ item.parameters = serializeParams p ∧
        item.expires_at = st.now + 300 ∧ item.ttl = st.now + 300) ∧
    (t1 ≠ t2 → tokenData x y t1 ≠ tokenData x y t2) := by
  constructor
  · refine ⟨rfl, tokenNat_lt _ _ _, ?_⟩
    refine ⟨{ token := tokenValueStr a (serializeParams p) (toString st.now)
              action := a
              parameters := serializeParams p
              created_at := env.nowIso
              expires_at := st.now + 300
              ttl := st.now + 300 }, ?_, rfl, rfl, rfl, rfl⟩
    exact findToken_putToken _ _
  · intro hne heq
    apply hne
    unfold tokenData at heq
    exact List.append_cancel_left heq

theorem C7_amended_token_derivation_witness :
    (([1] : List Nat) ≠ [2]) ∧
    ((generate_confirmation_token envOk stEmpty "terminate_instance"
        [("instance_id", "i-1")]).1 =
      some (hexUpper12 (tokenNat (strBytes "terminate_instance")
        (strBytes (serializeParams [("instance_id", "i-1")])) (strBytes (toString stEmpty.now)))) ∧
     tokenData [] [] [1] ≠ tokenData [] [] [2]) := by
  have h := C7_amended_token_derivation envOk stEmpty "terminate_instance"
    [("instance_id", "i-1")] [] [] [1] [2]
  exact ⟨by decide, h.1.1, h.2 (by decide)⟩

/-! ### Log-failure noninterference -/

@[simp] theorem env_flag_describeInstances (env : Env) (b : Bool) :
    ({ env with logPutFails := b } : Env).describeInstances = env.describeInstances := rfl

@[simp] theorem env_flag_describeVolumes (env : Env) (b : Bool) :
    ({ env with logPutFails := b } : Env).describeVolumes = env.describeVolumes := rfl

@[simp] theorem env_flag_terminateStateOf (env : Env) (b : Bool) :
    ({ env with logPutFails := b } : Env).terminateStateOf = env.terminateStateOf := rfl

@[simp] theorem env_flag_check (env : Env) (b : Bool) (st : St) (i : String) :
    check_ami_backup_status { env with logPutFails := b } st i =
      check_ami_backup_status env st i := rfl

@[simp] theorem env_flag_generate (env : Env) (b : Bool) (st : St) (a : String) (p : Params) :
    generate_confirmation_token { env with logPutFails := b } st a p =
      generate_confirmation_token env st a p := rfl

theorem terminate_log_flag_indep (env : Env) (b : Bool) (st : St) (iid : String)
    (tok : Option String) (skip : Bool) :
    (terminate_ec2_instance { env with logPutFails := b } st iid tok skip).1 =
      (terminate_ec2_instance env st iid tok skip).1 ∧
    (terminate_ec2_instance { env with logPutFails := b } st iid tok skip).2.confirmations =
      (terminate_ec2_instance env st iid tok skip).2.confirmations ∧
    (terminate_ec2_instance { env with logPutFails := b } st iid tok skip).2.calls =
      (terminate_ec2_instance env st iid tok skip).2.calls := by
  unfold terminate_ec2_instance
  simp only [env_flag_describeInstances, env_flag_check, env_flag_generate,
    env_flag_terminateStateOf]
  split
  · refine ⟨?_, ?_, ?_⟩ <;> simp
  · refine ⟨?_, ?_, ?_⟩ <;> simp
  · split
    · refine ⟨?_, ?_, ?_⟩ <;> simp
    · split
      · refine ⟨?_, ?_, ?_⟩ <;> simp
      · split
        · refine ⟨?_, ?_, ?_⟩ <;> simp
        · refine ⟨?_, ?_, ?_⟩ <;> simp

theorem delete_log_flag_indep (env : Env) (b : Bool) (st : St) (vid : String)
    (tok : Option String) :
    (delete_ebs_volume { env with logPutFails := b } st vid tok).1 =
      (delete_ebs_volume env st vid tok).1 ∧
    (delete_ebs_volume { env with logPutFails := b } st vid tok).2.confirmations =
      (delete_ebs_volume env st vid tok).2.confirmations ∧
    (delete_ebs_volume { env with logPutFails := b } st vid tok).2.calls =
      (delete_ebs_volume env st vid tok).2.calls := by
  unfold delete_ebs_volume
  simp only [env_flag_describeVolumes, env_flag_generate]
  split
  · refine ⟨?_, ?_, ?_⟩ <;> simp
  · split
    · refine ⟨?_, ?_, ?_⟩ <;> simp
    · split
      · refine ⟨?_, ?_, ?_⟩ <;> simp
      · split
        · refine ⟨?_, ?_, ?_⟩ <;> simp
        · refine ⟨?_, ?_, ?_⟩ <;> simp

/-- C10: a failure of the audit-log put never aborts or alters the
authorization outcome: `log_action` catches the failure itself (returning
logged = false and leaving the state untouched), and the result, the
confirmation store, and the backend-call trace of the terminate and
delete flows are identical whatever the value of the log-failure flag —
only the audit-log contents can differ. -/
theorem C10_log_failure_never_alters_outcome (env : Env) (b1 b2 : Bool) (st : St)
    (a p s : String) (res err uq ue : Option String)
    (iid vid : String) (tok : Option String) (skip : Bool) :
    ((log_action { env with logPutFails := true } st a p s res err uq ue).1.logged = false ∧
     (log_action { env with logPutFails := true } st a p s res err uq ue).2 = st) ∧
    ((terminate_ec2_instance { env with logPutFails := b1 } st iid tok skip).1 =
       (terminate_ec2_instance { env with logPutFails := b2 } st iid tok skip).1 ∧
     (terminate_ec2_instance { env with logPutFails := b1 } st iid tok skip).2.confirmations =
       (terminate_ec2_instance { env with logPutFails := b2 } st iid tok skip).2.confirmations ∧
     (terminate_ec2_instance { env with logPutFails := b1 } st iid tok skip).2.calls =
       (terminate_ec2_instance { env with logPutFails := b2 } st iid tok skip).2.calls) ∧
    ((delete_ebs_volume { env with logPutFails := b1 } st vid tok).1 =
       (delete_ebs_volume { env with logPutFails := b2 } st vid tok).1 ∧
     (delete_ebs_volume { env with logPutFails := b1 } st vid tok).2.confirmations =
       (delete_ebs_volume { env with logPutFails := b2 } st vid tok).2.confirmations ∧
     (delete_ebs_volume { env with logPutFails := b1 } st vid tok).2.calls =
       (delete_ebs_volume { env with logPutFails := b2 } st vid tok).2.calls) := by
  have t1 := terminate_log_flag_indep env b1 st iid tok skip
  have t2 := terminate_log_flag_indep env b2 st iid tok skip
  have d1 := delete_log_flag_indep env b1 st vid tok
  have d2 := delete_log_flag_indep env b2 st vid tok
  exact ⟨⟨rfl, rfl⟩,
    ⟨t1.1.trans t2.1.symm, t1.2.1.trans t2.2.1.symm, t1.2.2.trans t2.2.2.symm⟩,
    ⟨d1.1.trans d2.1.symm, d1.2.1.trans d2.2.1.symm, d1.2.2.trans d2.2.2.symm⟩⟩
